import Mathlib

/-!
Shallow embedding of the wiresteward agent (`agent.go`).

The agent provisions a WireGuard-style interface: it starts the tunnel
device, brings the link up, ensures a key pair exists on the device, and
negotiates IP leases with a remote lease server over HTTP, applying the
leased address to the interface.

External effects (netlink calls, the key store, HTTP, key generation) are
modelled by an explicit environment of oracles (`Env`), and every function
additionally produces a trace of the effectful calls it made (`Event`),
so that properties such as "no route-installation call is made" are
statable as facts about the trace.
-/

namespace Wiresteward

/-- An IP network in parsed form (`*net.IPNet`), abstracted to its CIDR
rendering, which is all the agent code inspects (via `%v` formatting). -/
structure IPNet where
  str : String
deriving DecidableEq, Repr

/-- Modelled from the spec: the lease request body shape, a JSON object
with the single field `pubKey` (the `Request` struct is declared outside
`agent.go`). -/
structure Request where
  pubKey : String
deriving DecidableEq, Repr

/-- Modelled from the spec: the lease response shape, JSON fields `IP`,
`AllowedIPs`, `PubKey`, `Endpoint` (the `Response` struct is declared
outside `agent.go`). -/
structure Response where
  IP : String
  AllowedIPs : String
  PubKey : String
  Endpoint : String
deriving DecidableEq, Repr

/-- Modelled from the spec: the remote peer configuration
(`wgtypes.PeerConfig`), restricted to the fields this flow populates:
public key, pre-shared key (always empty here), endpoint, allowed IPs. -/
structure PeerConfig where
  publicKey : String
  presharedKey : String
  endpoint : String
  allowedIPs : List String
deriving DecidableEq, Repr

/-- The Go zero value `&wgtypes.PeerConfig{}` returned on every error
path of `GetNewWgLease`. -/
def emptyPeerConfig : PeerConfig := ⟨"", "", "", []⟩

/-- The `Agent` struct: device name plus the key pair held after
construction (handles and channels carry no data relevant here). -/
structure Agent where
  device : String
  pubKey : String
  privKey : String
deriving DecidableEq, Repr

/-- The key material stored on the managed device (the key store the
missing `getKeys` / `setPrivateKey` read and write). -/
structure DeviceState where
  privKey : String
deriving DecidableEq, Repr

/-- One effectful call made by the agent, recorded in order. -/
inductive Event where
  | startTun (dev : String)
  | runLoop (dev : String)
  | ensureLinkUp (dev : String)
  | getKeys (dev : String)
  | generateKey
  | setPrivateKey (dev : String) (key : String)
  | httpPost (url : String) (authHeader : String) (body : String)
  | parseIPNet (s : String)
  | updateIP (dev : String) (ip : IPNet)
  | addRoute (dev : String) (dst : IPNet)
deriving DecidableEq, Repr

/-- Outcome of the HTTP round trip (`client.Do` plus the response). -/
inductive HttpResult where
  | transportError (msg : String)
  | response (statusCode : Nat) (status : String) (bodyRead : Except String String)

/-- The environment of external oracles: results of kernel, key-store,
crypto and network calls for one run. -/
structure Env where
  /-- result of `startTunDevice` -/
  startTun : Except String Unit
  /-- error from `EnsureLinkUp`, if any -/
  ensureLinkUpErr : Option String
  /-- error from the n-th `getKeys` call of this run, if any -/
  getKeysErr : Nat → Option String
  /-- public key the key store reports for a stored private key -/
  pubFromPriv : String → String
  /-- result of `wgtypes.GeneratePrivateKey` -/
  keyGen : Except String String
  /-- error from `setPrivateKey`, if any -/
  setPrivKeyErr : Option String
  /-- error from `http.NewRequest`, if any (`some` means the returned
  request pointer is nil) -/
  newRequestError : Option String
  /-- outcome of the HTTP exchange -/
  httpResult : HttpResult
  /-- `json.Unmarshal` of the body into a `Response`: the (possibly
  partially filled) value and the error, if any -/
  unmarshal : String → Response × Option String
  /-- result of `netlink.ParseIPNet` on a CIDR string -/
  parseIPNet : String → Except String IPNet
  /-- error from `netlinkHandle.UpdateIP`, if any -/
  updateIP : IPNet → Option String
  /-- error from `netlinkHandle.AddRoute` for a destination, if any -/
  addRoute : IPNet → Option String
  /-- error from `newPeerConfig`, if any (key/endpoint parsing) -/
  newPeerConfigErr : Option String

/-- A computation outcome: either a Go runtime panic or a returned value. -/
inductive Outcome (α : Type) where
  | panic (msg : String)
  | ret (v : α)
deriving DecidableEq, Repr

/-- The well-known base64 encoding of the all-zero private key, the
"no key configured" sentinel checked in `NewAgent`. -/
def emptyKeySentinel : String := "AAAAAAAAAAAAAAAAAAAAAAAAAAAAAAAAAAAAAAAAAAA="

/-! ## JSON marshalling of the lease request

`json.Marshal(&Request{PubKey: a.pubKey})`: marshalling a struct of one
string field cannot fail in Go, so the embedded body builder is total;
the escaping below follows `encoding/json` (with its default HTML
escaping of `<`, `>`, `&`). -/

/-- Hex digit for a nibble, lower case as `encoding/json` emits. -/
def hexDigit (n : Nat) : Char :=
  if n < 10 then Char.ofNat (48 + n) else Char.ofNat (87 + n)

/-- Four-digit lower-case hex rendering of a code point below 0x10000. -/
def hex4 (n : Nat) : String :=
  ⟨[hexDigit (n / 4096 % 16), hexDigit (n / 256 % 16),
    hexDigit (n / 16 % 16), hexDigit (n % 16)]⟩

/-- Whether `encoding/json` escapes this character inside a string. -/
def jsonNeedsEscape (c : Char) : Bool :=
  c = '"' || c = '\\' || c.toNat < 32 || c = '<' || c = '>' || c = '&'
    || c.toNat = 0x2028 || c.toNat = 0x2029

/-- Escape one character the way `encoding/json` does. -/
def jsonEscapeChar (c : Char) : String :=
  if c = '"' then "\\\""
  else if c = '\\' then "\\\\"
  else if c = '\n' then "\\n"
  else if c = '\r' then "\\r"
  else if c = '\t' then "\\t"
  else if jsonNeedsEscape c then "\\u" ++ hex4 c.toNat
  else ⟨[c]⟩

/-- Escape each character of a list for a JSON string literal. -/
def jsonEscapeList : List Char → String
  | [] => ""
  | c :: cs => jsonEscapeChar c ++ jsonEscapeList cs

/-- Escape a string for inclusion in a JSON string literal. -/
def jsonEscape (s : String) : String :=
  jsonEscapeList s.data

/-- `json.Marshal` of the one-field `Request` struct. -/
def marshalRequest (r : Request) : String :=
  "\x7b\"pubKey\":\"" ++ jsonEscape r.pubKey ++ "\"\x7d"

/-- The JSON body `requestWgConfig` sends for an agent. -/
def requestBody (a : Agent) : String :=
  marshalRequest { pubKey := a.pubKey }

/-! ## Go string splitting

`strings.Split(s, ",")` for the single-character separator used at
`agent.go:173`. -/

/-- Split a character list at every occurrence of `c`, keeping empty
pieces; `strings.Split` semantics for a one-character separator. -/
def splitCharList (c : Char) : List Char → List (List Char)
  | [] => [[]]
  | x :: xs =>
    if x = c then [] :: splitCharList c xs
    else
      match splitCharList c xs with
      | [] => [[x]]
      | y :: ys => (x :: y) :: ys

/-- `strings.Split(s, ",")`. -/
def goSplitComma (s : String) : List String :=
  (splitCharList ',' s.data).map (fun l => ⟨l⟩)

/-- Rejoin pieces with `","`, the left inverse of `goSplitComma`. -/
def joinWithComma : List String → String
  | [] => ""
  | [x] => x
  | x :: xs => x ++ "," ++ joinWithComma xs

/-- Character-list version of `joinWithComma`, interposing `c`. -/
def joinCharPieces (c : Char) : List (List Char) → List Char
  | [] => []
  | [x] => x
  | x :: xs => x ++ c :: joinCharPieces c xs

/-! ## The agent functions (`agent.go`) -/

/-- Modelled from the spec: `getKeys(device)` (declared outside
`agent.go`) reads the device's key pair from the key store, returning
`(publicKey, privateKey, error)`; the public key is the one the store
derives from the stored private key. -/
def getKeys (env : Env) (st : DeviceState) (callIdx : Nat) :
    String × String × Option String :=
  match env.getKeysErr callIdx with
  | some e => ("", "", some e)
  | none => (env.pubFromPriv st.privKey, st.privKey, none)

/-- Modelled from the spec: `setPrivateKey(device, key)` (declared
outside `agent.go`) installs a private key on the device. -/
def setPrivateKey (env : Env) (st : DeviceState) (key : String) :
    DeviceState × Option String :=
  match env.setPrivKeyErr with
  | some e => (st, some e)
  | none => ({ st with privKey := key }, none)

/-- Lines 49–70 of `NewAgent`: read the key pair, generate and install a
fresh key when the stored one is the empty-key sentinel, then re-read and
record the pair on the agent. Returns the updated agent, the error (if
any), the device state after, and the trace of calls. -/
def ensureKeys (env : Env) (st : DeviceState) (a : Agent) :
    (Agent × Option String) × DeviceState × List Event :=
  match getKeys env st 0 with
  | (_, _, some e) =>
    ((a, some ("Cannot get keys for device: " ++ a.device ++ ": " ++ e)),
      st, [.getKeys a.device])
  | (_, privKey, none) =>
    if privKey = emptyKeySentinel then
      match env.keyGen with
      | .error e => ((a, some e), st, [.getKeys a.device, .generateKey])
      | .ok newKey =>
        let a1 := { a with privKey := newKey }
        match setPrivateKey env st a1.privKey with
        | (st', some e) =>
          ((a1, some e), st',
            [.getKeys a.device, .generateKey, .setPrivateKey a.device newKey])
        | (st', none) =>
          match getKeys env st' 1 with
          | (_, _, some e) =>
            ((a1, some e), st',
              [.getKeys a.device, .generateKey,
                .setPrivateKey a.device newKey, .getKeys a.device])
          | (pub, priv, none) =>
            (({ a1 with pubKey := pub, privKey := priv }, none), st',
              [.getKeys a.device, .generateKey,
                .setPrivateKey a.device newKey, .getKeys a.device])
    else
      match getKeys env st 1 with
      | (_, _, some e) =>
        ((a, some e), st, [.getKeys a.device, .getKeys a.device])
      | (pub, priv, none) =>
        (({ a with pubKey := pub, privKey := priv }, none), st,
          [.getKeys a.device, .getKeys a.device])

/-- `NewAgent(deviceName)`: start the tunnel device, launch its run
loop, bring the link up, and ensure a key pair exists on the device. -/
def NewAgent (env : Env) (st : DeviceState) (deviceName : String) :
    (Agent × Option String) × DeviceState × List Event :=
  let a : Agent := { device := deviceName, pubKey := "", privKey := "" }
  match env.startTun with
  | .error e =>
    ((a, some ("Error starting wg device: " ++ deviceName ++ ": " ++ e)),
      st, [.startTun deviceName])
  | .ok _ =>
    let tr := [Event.startTun deviceName, Event.runLoop deviceName]
    match env.ensureLinkUpErr with
    | some e => ((a, some e), st, tr ++ [.ensureLinkUp deviceName])
    | none =>
      let (res, st', trKeys) := ensureKeys env st a
      (res, st', tr ++ [.ensureLinkUp deviceName] ++ trKeys)

/-- `requestWgConfig(serverUrl, token)`: POST the agent's public key to
`<serverUrl>/newPeerLease` and decode the lease response. The error of
`http.NewRequest` is never examined by the source, which proceeds to set
headers on the returned request; a construction failure therefore
dereferences a nil pointer (a panic), not an error return. -/
def requestWgConfig (env : Env) (a : Agent) (serverUrl token : String) :
    Outcome (Response × Option String) × List Event :=
  let body := requestBody a
  match env.newRequestError with
  | some _ =>
    (.panic "runtime error: invalid memory address or nil pointer dereference",
      [])
  | none =>
    let ev := Event.httpPost (serverUrl ++ "/newPeerLease")
      ("Bearer " ++ token) body
    match env.httpResult with
    | .transportError e => (.ret (⟨"", "", "", ""⟩, some e), [ev])
    | .response statusCode status bodyRead =>
      if statusCode ≠ 200 then
        (.ret (⟨"", "", "", ""⟩, some ("Response status: " ++ status)), [ev])
      else
        match bodyRead with
        | .error e =>
          (.ret (⟨"", "", "", ""⟩,
            some ("error reading response body: " ++ e ++ ",")), [ev])
        | .ok bodyStr =>
          match env.unmarshal bodyStr with
          | (response, some e) => (.ret (response, some e), [ev])
          | (response, none) => (.ret (response, none), [ev])

/-- `addIpToDev(ip)`: parse the offered CIDR and assign it to the
managed device. -/
def addIpToDev (env : Env) (a : Agent) (ip : String) :
    Option String × List Event :=
  match env.parseIPNet ip with
  | .error e => (some ("Cannot parse offered ip net: " ++ e), [.parseIPNet ip])
  | .ok devIP =>
    match env.updateIP devIP with
    | some e => (some e, [.parseIPNet ip, .updateIP a.device devIP])
    | none => (none, [.parseIPNet ip, .updateIP a.device devIP])

/-- `addRoutesForAllowedIps(allowed_ips)`: parse each prefix in order and
install a route for it via the device; the first failure returns
immediately. -/
def addRoutesForAllowedIps (env : Env) (a : Agent) :
    List String → Option String × List Event
  | [] => (none, [])
  | aip :: rest =>
    match env.parseIPNet aip with
    | .error e =>
      (some ("Cannot parse ip: " ++ aip ++ ": " ++ e), [.parseIPNet aip])
    | .ok dst =>
      match env.addRoute dst with
      | some e =>
        (some ("Eror adding route " ++ dst.str ++ " via " ++ a.device
            ++ ": " ++ e),
          [.parseIPNet aip, .addRoute a.device dst])
      | none =>
        let (r, tr) := addRoutesForAllowedIps env a rest
        (r, [.parseIPNet aip, .addRoute a.device dst] ++ tr)

/-- Modelled from the spec: `newPeerConfig(pubKey, psk, endpoint,
allowedIPs)` (declared outside `agent.go`) builds the remote peer
configuration from the given public key, pre-shared key, endpoint and
allowed-IP prefixes, failing when they cannot be parsed. -/
def newPeerConfig (env : Env) (pubKey psk endpoint : String)
    (allowedIPs : List String) : Except String PeerConfig :=
  match env.newPeerConfigErr with
  | some e => .error e
  | none => .ok ⟨pubKey, psk, endpoint, allowedIPs⟩

/-- `GetNewWgLease(serverUrl, token)`: request a lease, assign the
offered IP to the device, split the allowed-IP list on commas, and build
the peer configuration. Returns `(peerConfig, allowedIPs, error)` and
the trace. -/
def GetNewWgLease (env : Env) (a : Agent) (serverUrl token : String) :
    Outcome (PeerConfig × List String × Option String) × List Event :=
  match requestWgConfig env a serverUrl token with
  | (.panic m, tr) => (.panic m, tr)
  | (.ret (_, some e), tr) => (.ret (emptyPeerConfig, [], some e), tr)
  | (.ret (resp, none), tr) =>
    let (ipErr, tr1) := addIpToDev env a resp.IP
    match ipErr with
    | some e => (.ret (emptyPeerConfig, [], some e), tr ++ tr1)
    | none =>
      let allowed_ips := goSplitComma resp.AllowedIPs
      match newPeerConfig env resp.PubKey "" resp.Endpoint allowed_ips with
      | .error e => (.ret (emptyPeerConfig, [], some e), tr ++ tr1)
      | .ok peer => (.ret (peer, allowed_ips, none), tr ++ tr1)

/-! ## Concrete environments for scenario claims and witnesses -/

/-- The lease response of the spec scenario. -/
def scenarioResponse : Response :=
  ⟨"10.0.0.5/32", "10.0.1.0/24,10.0.2.0/24", "abc=", "1.2.3.4:51820"⟩

/-- An environment in which every external call succeeds and the lease
server answers 200 with the scenario response. -/
def scenarioEnv : Env where
  startTun := .ok ()
  ensureLinkUpErr := none
  getKeysErr := fun _ => none
  pubFromPriv := fun s => "pub:" ++ s
  keyGen := .ok "GENERATEDKEYAAAAAAAAAAAAAAAAAAAAAAAAAAAAAAA="
  setPrivKeyErr := none
  newRequestError := none
  httpResult := .response 200 "200 OK" (.ok "\x7b\x7d")
  unmarshal := fun _ => (scenarioResponse, none)
  parseIPNet := fun s => .ok ⟨s⟩
  updateIP := fun _ => none
  addRoute := fun _ => none
  newPeerConfigErr := none

/-- A concrete agent on device `wg0`. -/
def wg0 : Agent := ⟨"wg0", "mykey=", "myprivkey="⟩

/-- The same agent with a different private key (same public key). -/
def wg0Alt : Agent := ⟨"wg0", "mykey=", "someotherprivkey="⟩

/-- The scenario environment but with the lease server answering 500. -/
def env500 : Env :=
  { scenarioEnv with
      httpResult := .response 500 "500 Internal Server Error" (.ok "") }

/-- The scenario environment but with tunnel-device creation failing. -/
def envTunFail : Env :=
  { scenarioEnv with startTun := .error "operation not permitted" }

/-- The scenario environment but where the CIDR string `"bad"` does not
parse. -/
def envParseFail : Env :=
  { scenarioEnv with
      parseIPNet := fun s =>
        if s = "bad" then .error "invalid CIDR address: bad" else .ok ⟨s⟩ }

/-- The scenario environment but with `http.NewRequest` failing (nil
request returned). -/
def envNewReqFail : Env :=
  { scenarioEnv with newRequestError := some "missing protocol scheme" }

/-! ## General lemmas about the comma split -/

theorem mk_append (a b : List Char) :
    (⟨a⟩ : String) ++ (⟨b⟩ : String) = ⟨a ++ b⟩ := rfl

theorem splitCharList_ne_nil (c : Char) (l : List Char) :
    splitCharList c l ≠ [] := by
  induction l with
  | nil => simp [splitCharList]
  | cons x xs ih =>
    by_cases hx : x = c
    · simp [splitCharList, hx]
    · simp only [splitCharList, if_neg hx]
      rcases h : splitCharList c xs with _ | ⟨y, ys⟩
      · simp
      · simp

theorem length_splitCharList (c : Char) (l : List Char) :
    (splitCharList c l).length = l.count c + 1 := by
  induction l with
  | nil => simp [splitCharList]
  | cons x xs ih =>
    by_cases hx : x = c
    · subst hx
      simp [splitCharList, List.count_cons, ih]
    · rcases h : splitCharList c xs with _ | ⟨y, ys⟩
      · exact absurd h (splitCharList_ne_nil c xs)
      · rw [h] at ih
        simp only [List.length_cons] at ih
        simp only [splitCharList, if_neg hx, h, List.length_cons,
          List.count_cons]
        have : (x == c) = false := by simpa using hx
        simp [this]
        omega

theorem joinCharPieces_splitCharList (c : Char) (l : List Char) :
    joinCharPieces c (splitCharList c l) = l := by
  induction l with
  | nil => rfl
  | cons x xs ih =>
    by_cases hx : x = c
    · subst hx
      rcases h : splitCharList x xs with _ | ⟨y, ys⟩
      · exact absurd h (splitCharList_ne_nil x xs)
      · rw [h] at ih
        simp [splitCharList, h, joinCharPieces, ih]
    · rcases h : splitCharList c xs with _ | ⟨y, ys⟩
      · exact absurd h (splitCharList_ne_nil c xs)
      · rw [h] at ih
        rcases ys with _ | ⟨z, zs⟩
        · simp [splitCharList, hx, h, joinCharPieces] at ih ⊢
          exact ih
        · simp [splitCharList, hx, h, joinCharPieces] at ih ⊢
          exact ih

theorem not_mem_of_mem_splitCharList (c : Char) (l : List Char) :
    ∀ p ∈ splitCharList c l, c ∉ p := by
  induction l with
  | nil =>
    intro p hp
    simp [splitCharList] at hp
    simp [hp]
  | cons x xs ih =>
    intro p hp
    by_cases hx : x = c
    · simp only [splitCharList, if_pos hx, List.mem_cons] at hp
      rcases hp with h1 | h1
      · subst h1
        simp
      · exact ih p h1
    · rcases h : splitCharList c xs with _ | ⟨y, ys⟩
      · exact absurd h (splitCharList_ne_nil c xs)
      · simp only [splitCharList, if_neg hx, h, List.mem_cons] at hp
        rcases hp with h1 | h1
        · subst h1
          intro hc
          rcases List.mem_cons.mp hc with hc | hc
          · exact hx hc.symm
          · exact ih y (h ▸ List.mem_cons_self y ys) hc
        · exact ih p (h ▸ List.mem_cons_of_mem y h1)

theorem joinWithComma_map_mk (pieces : List (List Char)) :
    joinWithComma (pieces.map (fun l => (⟨l⟩ : String))) =
      ⟨joinCharPieces ',' pieces⟩ := by
  induction pieces with
  | nil => rfl
  | cons x xs ih =>
    rcases xs with _ | ⟨y, ys⟩
    · rfl
    · have ih' : joinWithComma
          ((⟨y⟩ : String) :: List.map (fun l => (⟨l⟩ : String)) ys) =
          ⟨joinCharPieces ',' (y :: ys)⟩ := by
        simpa using ih
      rw [List.map_cons, List.map_cons]
      show (⟨x⟩ : String) ++ "," ++ _ = _
      rw [ih', show ("," : String) = ⟨[',']⟩ from rfl, mk_append, mk_append]
      simp [joinCharPieces]

theorem joinWithComma_goSplitComma (s : String) :
    joinWithComma (goSplitComma s) = s := by
  unfold goSplitComma
  rw [joinWithComma_map_mk, joinCharPieces_splitCharList]

theorem length_goSplitComma (s : String) :
    (goSplitComma s).length = s.data.count ',' + 1 := by
  simp [goSplitComma, length_splitCharList]

theorem no_comma_in_goSplitComma (s : String) :
    ∀ p ∈ goSplitComma s, ',' ∉ p.data := by
  intro p hp
  unfold goSplitComma at hp
  rcases List.mem_map.mp hp with ⟨l, hl, rfl⟩
  exact not_mem_of_mem_splitCharList ',' s.data l hl

/-! ## Symbolic evaluation of the lease flow -/

theorem requestWgConfig_success (env : Env) (a : Agent)
    (url token status bodyStr : String) (resp : Response)
    (h1 : env.newRequestError = none)
    (h2 : env.httpResult = .response 200 status (.ok bodyStr))
    (h3 : env.unmarshal bodyStr = (resp, none)) :
    requestWgConfig env a url token =
      (.ret (resp, none),
        [.httpPost (url ++ "/newPeerLease") ("Bearer " ++ token)
          (requestBody a)]) := by
  unfold requestWgConfig
  rw [h1, h2]
  simp [h3]

theorem requestWgConfig_non200 (env : Env) (a : Agent)
    (url token status : String) (code : Nat)
    (bodyRead : Except String String)
    (h1 : env.newRequestError = none)
    (h2 : env.httpResult = .response code status bodyRead)
    (hc : code ≠ 200) :
    requestWgConfig env a url token =
      (.ret (⟨"", "", "", ""⟩, some ("Response status: " ++ status)),
        [.httpPost (url ++ "/newPeerLease") ("Bearer " ++ token)
          (requestBody a)]) := by
  unfold requestWgConfig
  rw [h1, h2]
  simp [hc]

theorem GetNewWgLease_requestError (env : Env) (a : Agent)
    (url token : String) (r : Response) (e : String) (tr : List Event)
    (h : requestWgConfig env a url token = (.ret (r, some e), tr)) :
    GetNewWgLease env a url token =
      (.ret (emptyPeerConfig, [], some e), tr) := by
  unfold GetNewWgLease
  rw [h]

theorem GetNewWgLease_success (env : Env) (a : Agent)
    (url token status bodyStr : String) (resp : Response) (ipn : IPNet)
    (h1 : env.newRequestError = none)
    (h2 : env.httpResult = .response 200 status (.ok bodyStr))
    (h3 : env.unmarshal bodyStr = (resp, none))
    (h4 : env.parseIPNet resp.IP = .ok ipn)
    (h5 : env.updateIP ipn = none)
    (h6 : env.newPeerConfigErr = none) :
    GetNewWgLease env a url token =
      (.ret (⟨resp.PubKey, "", resp.Endpoint, goSplitComma resp.AllowedIPs⟩,
          goSplitComma resp.AllowedIPs, none),
        [.httpPost (url ++ "/newPeerLease") ("Bearer " ++ token)
          (requestBody a),
          .parseIPNet resp.IP, .updateIP a.device ipn]) := by
  unfold GetNewWgLease
  rw [requestWgConfig_success env a url token status bodyStr resp h1 h2 h3]
  simp [addIpToDev, h4, h5, newPeerConfig, h6]

/-! ## The claims -/

/-- C1 counterexample: in the scenario environment (server returns
IP `10.0.0.5/32`, AllowedIPs `10.0.1.0/24,10.0.2.0/24`, PubKey `abc=`,
Endpoint `1.2.3.4:51820` and every kernel call succeeds), the lease
negotiation succeeds and returns exactly the claimed peer configuration,
yet `GetNewWgLease` makes no route-installation call for either
allowed-IP prefix: the claim that `GetNewWgLease` installs those routes
is false of the code. -/
theorem C1_counterexample :
    (GetNewWgLease scenarioEnv wg0 "https://srv" "tok").1 =
      .ret (⟨"abc=", "", "1.2.3.4:51820", ["10.0.1.0/24", "10.0.2.0/24"]⟩,
        ["10.0.1.0/24", "10.0.2.0/24"], none) ∧
    Event.addRoute "wg0" ⟨"10.0.1.0/24"⟩ ∉
      (GetNewWgLease scenarioEnv wg0 "https://srv" "tok").2 ∧
    Event.addRoute "wg0" ⟨"10.0.2.0/24"⟩ ∉
      (GetNewWgLease scenarioEnv wg0 "https://srv" "tok").2 := by
  refine ⟨rfl, ?_, ?_⟩ <;> decide

/-- C1 (amended): in the scenario environment, `GetNewWgLease` assigns
`10.0.0.5/32` to the managed device and returns a peer configuration
with public key `abc=`, endpoint `1.2.3.4:51820` and allowed IPs
`["10.0.1.0/24", "10.0.2.0/24"]`, together with that allowed-IP list;
the route for each of the two prefixes is installed by the separate
`addRoutesForAllowedIps` method applied to the returned list, not by
`GetNewWgLease` itself. -/
theorem C1_scenario_lease_and_routes :
    GetNewWgLease scenarioEnv wg0 "https://srv" "tok" =
      (.ret (⟨"abc=", "", "1.2.3.4:51820", ["10.0.1.0/24", "10.0.2.0/24"]⟩,
          ["10.0.1.0/24", "10.0.2.0/24"], none),
        [.httpPost "https://srv/newPeerLease" "Bearer tok"
          "\x7b\"pubKey\":\"mykey=\"\x7d",
          .parseIPNet "10.0.0.5/32", .updateIP "wg0" ⟨"10.0.0.5/32"⟩]) ∧
    addRoutesForAllowedIps scenarioEnv wg0 ["10.0.1.0/24", "10.0.2.0/24"] =
      (none,
        [.parseIPNet "10.0.1.0/24", .addRoute "wg0" ⟨"10.0.1.0/24"⟩,
          .parseIPNet "10.0.2.0/24", .addRoute "wg0" ⟨"10.0.2.0/24"⟩]) :=
  ⟨rfl, rfl⟩

/-- C2: for every lease-server response with an HTTP status other than
200, `GetNewWgLease` returns the error `Response status: <status text>`
built from the response status, and performs no address-installation and
no route-installation call on the device: the trace holds only the POST
itself, with no `updateIP` and no `addRoute` event. -/
theorem C2_non200_no_install (env : Env) (a : Agent)
    (url token status : String) (code : Nat)
    (bodyRead : Except String String)
    (h1 : env.newRequestError = none)
    (h2 : env.httpResult = .response code status bodyRead)
    (hc : code ≠ 200) :
    GetNewWgLease env a url token =
      (.ret (emptyPeerConfig, [], some ("Response status: " ++ status)),
        [.httpPost (url ++ "/newPeerLease") ("Bearer " ++ token)
          (requestBody a)]) ∧
    ∀ d ip, Event.updateIP d ip ∉ (GetNewWgLease env a url token).2 ∧
      Event.addRoute d ip ∉ (GetNewWgLease env a url token).2 := by
  have hreq := requestWgConfig_non200 env a url token status code bodyRead
    h1 h2 hc
  have hmain := GetNewWgLease_requestError env a url token ⟨"", "", "", ""⟩
    ("Response status: " ++ status) _ hreq
  refine ⟨hmain, ?_⟩
  intro d ip
  rw [hmain]
  simp

/-- C2 witness: the 500-status environment satisfies the hypotheses of
`C2_non200_no_install` at a concrete input. -/
theorem C2_witness :
    GetNewWgLease env500 wg0 "https://srv" "tok" =
      (.ret (emptyPeerConfig, [],
          some ("Response status: " ++ "500 Internal Server Error")),
        [.httpPost ("https://srv" ++ "/newPeerLease") ("Bearer " ++ "tok")
          (requestBody wg0)]) ∧
    ∀ d ip,
      Event.updateIP d ip ∉ (GetNewWgLease env500 wg0 "https://srv" "tok").2 ∧
      Event.addRoute d ip ∉ (GetNewWgLease env500 wg0 "https://srv" "tok").2 :=
  C2_non200_no_install env500 wg0 "https://srv" "tok"
    "500 Internal Server Error" 500 (.ok "") rfl rfl (by decide)

/-- C3: for every device whose stored private key is the all-zero
empty-key sentinel, successful agent construction makes exactly one
key-generation call, installs the generated key on the device before the
second key read, and both the agent's private key and the device's
stored private key end up equal to the generated key, which is not the
sentinel. The trace equality exhibits the full call order. -/
theorem C3_sentinel_key_generated_once (env : Env) (st : DeviceState)
    (dev k : String)
    (hst : st.privKey = emptyKeySentinel)
    (h1 : env.startTun = .ok ())
    (h2 : env.ensureLinkUpErr = none)
    (h3 : env.getKeysErr 0 = none)
    (h4 : env.getKeysErr 1 = none)
    (h5 : env.keyGen = .ok k)
    (h6 : env.setPrivKeyErr = none)
    (hk : k ≠ emptyKeySentinel) :
    NewAgent env st dev =
      ((⟨dev, env.pubFromPriv k, k⟩, none), ⟨k⟩,
        [.startTun dev, .runLoop dev, .ensureLinkUp dev, .getKeys dev,
          .generateKey, .setPrivateKey dev k, .getKeys dev]) ∧
    ((NewAgent env st dev).2.2).count .generateKey = 1 ∧
    (NewAgent env st dev).1.1.privKey ≠ emptyKeySentinel ∧
    (NewAgent env st dev).2.1.privKey ≠ emptyKeySentinel := by
  have hmain : NewAgent env st dev =
      ((⟨dev, env.pubFromPriv k, k⟩, none), ⟨k⟩,
        [.startTun dev, .runLoop dev, .ensureLinkUp dev, .getKeys dev,
          .generateKey, .setPrivateKey dev k, .getKeys dev]) := by
    simp [NewAgent, ensureKeys, getKeys, setPrivateKey,
      h1, h2, h3, h4, h5, h6, hst]
  refine ⟨hmain, ?_, ?_, ?_⟩ <;> rw [hmain]
  · rfl
  · exact hk
  · exact hk

/-- C3 witness: the scenario environment with a sentinel-keyed device
satisfies the hypotheses of `C3_sentinel_key_generated_once`. -/
theorem C3_witness :
    NewAgent scenarioEnv ⟨emptyKeySentinel⟩ "wg0" =
      ((⟨"wg0",
          scenarioEnv.pubFromPriv "GENERATEDKEYAAAAAAAAAAAAAAAAAAAAAAAAAAAAAAA=",
          "GENERATEDKEYAAAAAAAAAAAAAAAAAAAAAAAAAAAAAAA="⟩, none),
        ⟨"GENERATEDKEYAAAAAAAAAAAAAAAAAAAAAAAAAAAAAAA="⟩,
        [.startTun "wg0", .runLoop "wg0", .ensureLinkUp "wg0",
          .getKeys "wg0", .generateKey,
          .setPrivateKey "wg0" "GENERATEDKEYAAAAAAAAAAAAAAAAAAAAAAAAAAAAAAA=",
          .getKeys "wg0"]) ∧
    ((NewAgent scenarioEnv ⟨emptyKeySentinel⟩ "wg0").2.2).count
      .generateKey = 1 ∧
    (NewAgent scenarioEnv ⟨emptyKeySentinel⟩ "wg0").1.1.privKey ≠
      emptyKeySentinel ∧
    (NewAgent scenarioEnv ⟨emptyKeySentinel⟩ "wg0").2.1.privKey ≠
      emptyKeySentinel :=
  C3_sentinel_key_generated_once scenarioEnv ⟨emptyKeySentinel⟩ "wg0"
    "GENERATEDKEYAAAAAAAAAAAAAAAAAAAAAAAAAAAAAAA=" rfl rfl rfl rfl rfl rfl
    rfl (by decide)

/-- C8: for every device that already holds a non-sentinel private key,
the key-ensure step of agent construction makes no key-generation call
and returns the stored key pair with the device state unchanged; agent
construction as a whole likewise generates no key; and running the
key-ensure step a second time on the resulting agent and device state
returns the same result again (a no-op read). -/
theorem C8_existing_key_noop (env : Env) (st : DeviceState) (a : Agent)
    (dev : String)
    (hst : st.privKey ≠ emptyKeySentinel)
    (h1 : env.getKeysErr 0 = none)
    (h2 : env.getKeysErr 1 = none)
    (h3 : env.startTun = .ok ())
    (h4 : env.ensureLinkUpErr = none) :
    ensureKeys env st a =
      ((⟨a.device, env.pubFromPriv st.privKey, st.privKey⟩, none), st,
        [.getKeys a.device, .getKeys a.device]) ∧
    Event.generateKey ∉ (ensureKeys env st a).2.2 ∧
    ensureKeys env st ⟨a.device, env.pubFromPriv st.privKey, st.privKey⟩ =
      ((⟨a.device, env.pubFromPriv st.privKey, st.privKey⟩, none), st,
        [.getKeys a.device, .getKeys a.device]) ∧
    NewAgent env st dev =
      ((⟨dev, env.pubFromPriv st.privKey, st.privKey⟩, none), st,
        [.startTun dev, .runLoop dev, .ensureLinkUp dev, .getKeys dev,
          .getKeys dev]) ∧
    Event.generateKey ∉ (NewAgent env st dev).2.2 := by
  have he : ∀ b : Agent, ensureKeys env st b =
      ((⟨b.device, env.pubFromPriv st.privKey, st.privKey⟩, none), st,
        [.getKeys b.device, .getKeys b.device]) := by
    intro b
    simp [ensureKeys, getKeys, h1, h2, hst]
  have hmain : NewAgent env st dev =
      ((⟨dev, env.pubFromPriv st.privKey, st.privKey⟩, none), st,
        [.startTun dev, .runLoop dev, .ensureLinkUp dev, .getKeys dev,
          .getKeys dev]) := by
    simp [NewAgent, h3, h4, he]
  refine ⟨he a, ?_, he _, hmain, ?_⟩
  · rw [he a]; simp
  · rw [hmain]; simp

/-- C8 witness: the scenario environment with an already-keyed device
satisfies the hypotheses of `C8_existing_key_noop`. -/
theorem C8_witness :
    ensureKeys scenarioEnv ⟨"myprivkey="⟩ wg0 =
      ((⟨"wg0", scenarioEnv.pubFromPriv "myprivkey=", "myprivkey="⟩, none),
        ⟨"myprivkey="⟩, [.getKeys "wg0", .getKeys "wg0"]) ∧
    Event.generateKey ∉ (ensureKeys scenarioEnv ⟨"myprivkey="⟩ wg0).2.2 ∧
    ensureKeys scenarioEnv ⟨"myprivkey="⟩
        ⟨"wg0", scenarioEnv.pubFromPriv "myprivkey=", "myprivkey="⟩ =
      ((⟨"wg0", scenarioEnv.pubFromPriv "myprivkey=", "myprivkey="⟩, none),
        ⟨"myprivkey="⟩, [.getKeys "wg0", .getKeys "wg0"]) ∧
    NewAgent scenarioEnv ⟨"myprivkey="⟩ "wg0" =
      ((⟨"wg0", scenarioEnv.pubFromPriv "myprivkey=", "myprivkey="⟩, none),
        ⟨"myprivkey="⟩,
        [.startTun "wg0", .runLoop "wg0", .ensureLinkUp "wg0",
          .getKeys "wg0", .getKeys "wg0"]) ∧
    Event.generateKey ∉ (NewAgent scenarioEnv ⟨"myprivkey="⟩ "wg0").2.2 :=
  C8_existing_key_noop scenarioEnv ⟨"myprivkey="⟩ wg0 "wg0"
    (by decide) rfl rfl rfl rfl

/-- C9: whenever `GetNewWgLease` returns with a non-nil error, the other
two return values are the zero peer configuration and the empty
allowed-IP list, never partially built lease data. -/
theorem C9_error_returns_empty (env : Env) (a : Agent) (url token : String)
    (p : PeerConfig) (l : List String) (e : String) (tr : List Event)
    (h : GetNewWgLease env a url token = (.ret (p, l, some e), tr)) :
    p = emptyPeerConfig ∧ l = [] := by
  unfold GetNewWgLease requestWgConfig newPeerConfig at h
  repeat' split at h
  all_goals simp_all

/-- C9 witness: the 500-status environment returns an error at a
concrete input, and the accompanying peer configuration and allowed-IP
list are empty. -/
theorem C9_witness : emptyPeerConfig = emptyPeerConfig ∧
    ([] : List String) = [] :=
  C9_error_returns_empty env500 wg0 "https://srv" "tok" emptyPeerConfig []
    ("Response status: " ++ "500 Internal Server Error")
    [.httpPost ("https://srv" ++ "/newPeerLease") ("Bearer " ++ "tok")
      (requestBody wg0)] rfl

/-- C4: on the success path of a lease negotiation, the response's
allowed-IP string is split on the comma character into exactly
`count(",") + 1` entries, in the original order with empty entries kept
and nothing trimmed or filtered (rejoining the entries with `","`
restores the original string and no entry contains a comma), and that
list is both stored in the peer configuration and returned to the
caller. -/
theorem C4_allowed_ips_split (env : Env) (a : Agent)
    (url token status bodyStr : String) (resp : Response) (ipn : IPNet)
    (h1 : env.newRequestError = none)
    (h2 : env.httpResult = .response 200 status (.ok bodyStr))
    (h3 : env.unmarshal bodyStr = (resp, none))
    (h4 : env.parseIPNet resp.IP = .ok ipn)
    (h5 : env.updateIP ipn = none)
    (h6 : env.newPeerConfigErr = none) :
    (GetNewWgLease env a url token).1 =
      .ret (⟨resp.PubKey, "", resp.Endpoint, goSplitComma resp.AllowedIPs⟩,
        goSplitComma resp.AllowedIPs, none) ∧
    (goSplitComma resp.AllowedIPs).length =
      resp.AllowedIPs.data.count ',' + 1 ∧
    joinWithComma (goSplitComma resp.AllowedIPs) = resp.AllowedIPs ∧
    ∀ p ∈ goSplitComma resp.AllowedIPs, ',' ∉ p.data := by
  refine ⟨?_, length_goSplitComma _, joinWithComma_goSplitComma _,
    no_comma_in_goSplitComma _⟩
  rw [GetNewWgLease_success env a url token status bodyStr resp ipn
    h1 h2 h3 h4 h5 h6]

/-- C4 witness: the scenario environment satisfies the hypotheses of
`C4_allowed_ips_split` at a concrete input. -/
theorem C4_witness :
    (GetNewWgLease scenarioEnv wg0 "https://srv" "tok").1 =
      .ret (⟨scenarioResponse.PubKey, "", scenarioResponse.Endpoint,
          goSplitComma scenarioResponse.AllowedIPs⟩,
        goSplitComma scenarioResponse.AllowedIPs, none) ∧
    (goSplitComma scenarioResponse.AllowedIPs).length =
      scenarioResponse.AllowedIPs.data.count ',' + 1 ∧
    joinWithComma (goSplitComma scenarioResponse.AllowedIPs) =
      scenarioResponse.AllowedIPs ∧
    ∀ p ∈ goSplitComma scenarioResponse.AllowedIPs, ',' ∉ p.data :=
  C4_allowed_ips_split scenarioEnv wg0 "https://srv" "tok" "200 OK"
    "\x7b\x7d" scenarioResponse ⟨"10.0.0.5/32"⟩ rfl rfl rfl rfl rfl rfl

/-- Characters that `encoding/json` does not escape pass through
`jsonEscapeChar` unchanged. -/
theorem jsonEscapeChar_eq_self (c : Char)
    (h : jsonNeedsEscape c = false) : jsonEscapeChar c = ⟨[c]⟩ := by
  have hq : ¬c = '"' := by
    intro hc; subst hc; simp [jsonNeedsEscape] at h
  have hb : ¬c = '\\' := by
    intro hc; subst hc; simp [jsonNeedsEscape] at h
  have h32 : ¬c.toNat < 32 := by
    intro hc; simp [jsonNeedsEscape, hc] at h
  have hn : ¬c = '\n' := by
    intro hc; subst hc; simp at h32
  have hr : ¬c = '\r' := by
    intro hc; subst hc; simp at h32
  have ht : ¬c = '\t' := by
    intro hc; subst hc; simp at h32
  simp [jsonEscapeChar, hq, hb, hn, hr, ht, h]

/-- A string with no character needing JSON escaping is its own JSON
escape. -/
theorem jsonEscape_eq_self (s : String)
    (h : ∀ c ∈ s.data, jsonNeedsEscape c = false) : jsonEscape s = s := by
  suffices hl : ∀ l : List Char, (∀ c ∈ l, jsonNeedsEscape c = false) →
      jsonEscapeList l = ⟨l⟩ by
    have := hl s.data h
    unfold jsonEscape
    rw [this]
  intro l hesc
  induction l with
  | nil => rfl
  | cons c cs ih =>
    have hc := hesc c (List.mem_cons_self c cs)
    have ihh := ih (fun d hd => hesc d (List.mem_cons_of_mem c hd))
    simp only [jsonEscapeList, ihh, jsonEscapeChar_eq_self c hc, mk_append]
    rfl

/-- C5: the lease request body a POST carries is the JSON object whose
only field `pubKey` holds the agent's current public key: two agents
with the same public key (in particular, differing only in private key)
produce identical bodies, and for an escape-free key the body embeds the
key verbatim. -/
theorem C5_request_body_public_key_only (env : Env) (a b : Agent)
    (url token : String)
    (hpk : a.pubKey = b.pubKey)
    (hesc : ∀ c ∈ a.pubKey.data, jsonNeedsEscape c = false)
    (hn : env.newRequestError = none) :
    requestBody a = requestBody b ∧
    requestBody a = "\x7b\"pubKey\":\"" ++ a.pubKey ++ "\"\x7d" ∧
    (requestWgConfig env a url token).2 =
      [.httpPost (url ++ "/newPeerLease") ("Bearer " ++ token)
        (requestBody a)] := by
  refine ⟨?_, ?_, ?_⟩
  · unfold requestBody marshalRequest
    rw [hpk]
  · unfold requestBody marshalRequest
    rw [jsonEscape_eq_self a.pubKey hesc]
  · unfold requestWgConfig
    rw [hn]
    rcases env.httpResult with e | ⟨code, status, br⟩
    · rfl
    · by_cases hc : code = 200
      · subst hc
        simp only [if_pos rfl, ne_eq, not_true_eq_false, if_false]
        rcases br with e | bodyStr
        · rfl
        · rcases hu : env.unmarshal bodyStr with ⟨r, oe⟩
          rcases oe with _ | e <;> simp [hu]
      · simp [hc]

/-- C5 witness: two concrete agents sharing the public key `mykey=` but
holding different private keys satisfy the hypotheses of
`C5_request_body_public_key_only`. -/
theorem C5_witness :
    requestBody wg0 = requestBody wg0Alt ∧
    requestBody wg0 = "\x7b\"pubKey\":\"" ++ wg0.pubKey ++ "\"\x7d" ∧
    (requestWgConfig scenarioEnv wg0 "https://srv" "tok").2 =
      [.httpPost ("https://srv" ++ "/newPeerLease") ("Bearer " ++ "tok")
        (requestBody wg0)] :=
  C5_request_body_public_key_only scenarioEnv wg0 wg0Alt "https://srv"
    "tok" rfl (by decide) rfl

/-- C6: if virtual-device creation fails, `NewAgent` returns the wrapped
error immediately: the run loop is never launched, the link is not
brought up, and no key read or generation is attempted (the trace holds
only the failed device start). -/
theorem C6_device_start_failure_aborts (env : Env) (st : DeviceState)
    (dev e : String)
    (h : env.startTun = .error e) :
    NewAgent env st dev =
      ((⟨dev, "", ""⟩,
          some ("Error starting wg device: " ++ dev ++ ": " ++ e)), st,
        [.startTun dev]) ∧
    Event.runLoop dev ∉ (NewAgent env st dev).2.2 ∧
    Event.ensureLinkUp dev ∉ (NewAgent env st dev).2.2 ∧
    Event.getKeys dev ∉ (NewAgent env st dev).2.2 ∧
    Event.generateKey ∉ (NewAgent env st dev).2.2 := by
  have hmain : NewAgent env st dev =
      ((⟨dev, "", ""⟩,
          some ("Error starting wg device: " ++ dev ++ ": " ++ e)), st,
        [.startTun dev]) := by
    simp [NewAgent, h]
  refine ⟨hmain, ?_, ?_, ?_, ?_⟩ <;> rw [hmain] <;> simp

/-- C6 witness: the environment with failing tunnel-device creation
satisfies the hypotheses of `C6_device_start_failure_aborts`. -/
theorem C6_witness :
    NewAgent envTunFail ⟨"myprivkey="⟩ "wg0" =
      ((⟨"wg0", "", ""⟩,
          some ("Error starting wg device: " ++ "wg0" ++ ": " ++
            "operation not permitted")), ⟨"myprivkey="⟩,
        [.startTun "wg0"]) ∧
    Event.runLoop "wg0" ∉ (NewAgent envTunFail ⟨"myprivkey="⟩ "wg0").2.2 ∧
    Event.ensureLinkUp "wg0" ∉
      (NewAgent envTunFail ⟨"myprivkey="⟩ "wg0").2.2 ∧
    Event.getKeys "wg0" ∉ (NewAgent envTunFail ⟨"myprivkey="⟩ "wg0").2.2 ∧
    Event.generateKey ∉ (NewAgent envTunFail ⟨"myprivkey="⟩ "wg0").2.2 :=
  C6_device_start_failure_aborts envTunFail ⟨"myprivkey="⟩ "wg0"
    "operation not permitted" rfl

/-- C7: when routes are added for a list of allowed-IP prefixes, the
prefixes are handled in list order and the first failure (parse error or
kernel route error) aborts processing: the run over the full list equals
the run over the list truncated right after the failing prefix — so no
later prefix is parsed or installed — and an error is returned. -/
theorem C7_route_failure_aborts (env : Env) (a : Agent)
    (pre : List String) (x : String) (post : List String)
    (hpre : ∀ y ∈ pre,
      ∃ ip, env.parseIPNet y = .ok ip ∧ env.addRoute ip = none)
    (hx : (∃ e, env.parseIPNet x = .error e) ∨
      (∃ ip e, env.parseIPNet x = .ok ip ∧ env.addRoute ip = some e)) :
    addRoutesForAllowedIps env a (pre ++ x :: post) =
      addRoutesForAllowedIps env a (pre ++ [x]) ∧
    (addRoutesForAllowedIps env a (pre ++ x :: post)).1.isSome := by
  induction pre with
  | nil =>
    rcases hx with ⟨e, he⟩ | ⟨ip, e, hip, he⟩
    · constructor <;> simp [addRoutesForAllowedIps, he]
    · constructor <;> simp [addRoutesForAllowedIps, hip, he]
  | cons y ys ih =>
    have hy := hpre y (List.mem_cons_self y ys)
    rcases hy with ⟨ip, hip, hroute⟩
    have ihh := ih (fun z hz => hpre z (List.mem_cons_of_mem y hz))
    constructor
    · simp only [List.cons_append, addRoutesForAllowedIps, hip, hroute,
        List.append_eq, ihh.1]
    · simp only [List.cons_append, addRoutesForAllowedIps, hip, hroute]
      exact ihh.2

/-- C7 witness: with prefix `bad` failing to parse, the run over
`["10.0.1.0/24", "bad", "10.0.9.0/24"]` equals the run truncated after
`bad` and returns an error. -/
theorem C7_witness :
    addRoutesForAllowedIps envParseFail wg0
        (["10.0.1.0/24"] ++ "bad" :: ["10.0.9.0/24"]) =
      addRoutesForAllowedIps envParseFail wg0 (["10.0.1.0/24"] ++ ["bad"]) ∧
    (addRoutesForAllowedIps envParseFail wg0
      (["10.0.1.0/24"] ++ "bad" :: ["10.0.9.0/24"])).1.isSome :=
  C7_route_failure_aborts envParseFail wg0 ["10.0.1.0/24"] "bad"
    ["10.0.9.0/24"]
    (by
      intro y hy
      simp only [List.mem_singleton] at hy
      subst hy
      exact ⟨⟨"10.0.1.0/24"⟩, rfl, rfl⟩)
    (Or.inl ⟨"invalid CIDR address: bad", rfl⟩)

/-- C10: when building the HTTP POST request fails, `requestWgConfig`
does not return that error: the source never examines it and proceeds to
set headers on the nil request, so the call panics with a nil-pointer
dereference and the construction-error branch is unreachable as an error
result of the function. -/
theorem C10_new_request_error_unreachable (env : Env) (a : Agent)
    (url token e : String)
    (h : env.newRequestError = some e) :
    requestWgConfig env a url token =
      (.panic
        "runtime error: invalid memory address or nil pointer dereference",
        []) ∧
    ∀ r oe tr, requestWgConfig env a url token ≠ (.ret (r, oe), tr) := by
  have hmain : requestWgConfig env a url token =
      (.panic
        "runtime error: invalid memory address or nil pointer dereference",
        []) := by
    simp [requestWgConfig, h]
  refine ⟨hmain, ?_⟩
  intro r oe tr hcontr
  rw [hmain] at hcontr
  simp at hcontr

/-- C10 witness: the environment with failing request construction
satisfies the hypotheses of `C10_new_request_error_unreachable`. -/
theorem C10_witness :
    requestWgConfig envNewReqFail wg0 "://bad" "tok" =
      (.panic
        "runtime error: invalid memory address or nil pointer dereference",
        []) ∧
    ∀ r oe tr,
      requestWgConfig envNewReqFail wg0 "://bad" "tok" ≠ (.ret (r, oe), tr) :=
  C10_new_request_error_unreachable envNewReqFail wg0 "://bad" "tok"
    "missing protocol scheme" rfl

end Wiresteward
